import Mathlib

/-!
Verification of the PoolSync number platform
(`custom_components/poolsync_custom/number.py`).

The device state tree held by the coordinator is a JSON-like nested
mapping; Python floats are modelled as rationals (the conversions in the
source are exact rational expressions), Python `int()` truncation as
truncation toward zero on rationals, and the side-effecting write path as
a trace of external calls plus an `Except` result.
-/

namespace PoolSync

/-- A JSON-like value: the shape of the coordinator's `data` tree.
Objects are association lists so that Python dict iteration order is
preserved (discovery tie-breaks on it). -/
inductive JSON where
  | null : JSON
  | bool (b : Bool) : JSON
  | num (q : ℚ) : JSON
  | str (s : String) : JSON
  | obj (fields : List (String × JSON)) : JSON

/-- Python `d.get(k)` on a mapping: the first binding of `k`, if any. -/
def dictGet (d : List (String × JSON)) (k : String) : Option JSON :=
  (d.find? (fun p => p.1 == k)).map Prod.snd

/-- `value == "s"` in Python where `value` is a tree node: true exactly
when the node is the string `s`. -/
def jeqStr : JSON → String → Bool
  | JSON.str t, s => t == s
  | _, _ => false

/-- `UnitOfTemperature.CELSIUS` (homeassistant.const). -/
def CELSIUS : String := "°C"

/-- `PERCENTAGE` (homeassistant.const). -/
def PERCENTAGE : String := "%"

/-- Modelled from the spec: `_get_value_from_path` lives in `sensor.py`,
which is not under `src/`; spec §4.1 describes its contract.  Traverse
the path key by key; at each step, if the current node is not a mapping
or the key is absent, return Absent; return the terminal value if
traversal completes, Absent if the terminal value is null or the path is
empty. -/
def resolveSteps : JSON → List String → Option JSON
  | v, [] => some v
  | JSON.obj d, k :: ks =>
      match dictGet d k with
      | some v => resolveSteps v ks
      | Option.none => Option.none
  | _, _ :: _ => Option.none

/-- Modelled from the spec: the Path Resolver `resolve(tree, path)`
(spec §4.1), i.e. `_get_value_from_path` from `sensor.py` (not under
`src/`): sequential key lookup, Absent on a missing step, a non-mapping
intermediate node, a null terminal value, or an empty path. -/
def _get_value_from_path (tree : JSON) (path : List String) : Option JSON :=
  match path with
  | [] => Option.none
  | _ :: _ =>
      match resolveSteps tree path with
      | some JSON.null => Option.none
      | r => r

/-- Decimal fragment of Python `float(str)`: value of a digit string. -/
def digitsVal (l : List Char) : ℕ :=
  l.foldl (fun n c => n * 10 + (c.toNat - 48)) 0

/-- Python `float(s)` on a string, restricted to plain signed decimal
literals (optional sign, digits, optional fractional part); any other
string fails, as in the source's `except (ValueError, TypeError)`. -/
def parseFloat? (s : String) : Option ℚ :=
  let cs := s.toList
  let signAndRest : ℚ × List Char :=
    match cs with
    | '-' :: rest => (-1, rest)
    | '+' :: rest => (1, rest)
    | _ => (1, cs)
  let sgn := signAndRest.1
  let body := signAndRest.2
  let intPart := body.takeWhile Char.isDigit
  let rest := body.dropWhile Char.isDigit
  match rest with
  | [] =>
      if intPart.isEmpty then Option.none
      else some (sgn * (digitsVal intPart : ℚ))
  | '.' :: frac =>
      if frac.all Char.isDigit ∧ ¬ (intPart.isEmpty ∧ frac.isEmpty) then
        some (sgn * ((digitsVal intPart : ℚ) +
          (digitsVal frac : ℚ) / ((10 : ℚ) ^ frac.length)))
      else Option.none
  | _ => Option.none

/-- Python `float(value)` on a tree node: numbers pass through, booleans
coerce to 0/1, strings are parsed as decimal literals; `None` and
mappings raise `TypeError`, modelled as `Option.none` (the source catches
`(ValueError, TypeError)`). -/
def pyFloat : JSON → Option ℚ
  | JSON.num q => some q
  | JSON.bool b => some (if b then 1 else 0)
  | JSON.str s => parseFloat? s
  | JSON.null => Option.none
  | JSON.obj _ => Option.none

/-- Fahrenheit to Celsius, from `native_value` line 197:
`num_value = (num_value - 32) * 5 / 9`. -/
def fToC (f : ℚ) : ℚ := (f - 32) * 5 / 9

/-- Celsius to Fahrenheit, from `async_set_native_value` line 211:
`new_value = (new_value * 9 / 5) + 32`. -/
def cToF (c : ℚ) : ℚ := c * 9 / 5 + 32

/-- Python `int(q)` on a rational: truncation toward zero. -/
def truncQ (q : ℚ) : ℤ := q.num.tdiv q.den

/-- The state of a `PoolSyncChlorOutputNumberEntity`: its description's
key and unit, and its data path (the `value_fn` is always `None` in the
source and unused). -/
structure NumberEntity where
  key : String
  native_unit_of_measurement : Option String
  data_path : List String

/-- `PoolSyncChlorOutputNumberEntity.native_value`: resolve the path in
the coordinator's data; `None` stays `None`; coerce to float, absorbing
coercion failures into `None`; convert °F to °C when the unit is
Celsius. -/
def native_value (e : NumberEntity) (tree : JSON) : Option ℚ :=
  match _get_value_from_path tree e.data_path with
  | Option.none => Option.none
  | some value =>
      match pyFloat value with
      | Option.none => Option.none
      | some num_value =>
          some (if e.native_unit_of_measurement = some CELSIUS then
            fToC num_value else num_value)

/-- Outcome of `coordinator.api_client._request_patch`, the external
update operation: success, a raised `HomeAssistantError`, or any other
exception (carrying its message). -/
inductive PatchOutcome where
  | ok : PatchOutcome
  | haErr : PatchOutcome
  | otherErr (msg : String) : PatchOutcome

/-- Externally observable calls made by `async_set_native_value`, in
order. -/
inductive Event where
  | patchCall (deviceId keyId : String) (value : ℤ) : Event
  | refreshRequest : Event

/-- How `async_set_native_value` terminates abnormally.
`credentialUnavailable` and `writeFailed` are both raised as
`HomeAssistantError` in the source; `haError` is a `HomeAssistantError`
from the patch call re-raised unwrapped; `indexError` is the `IndexError`
from `datapath[1]` / `datapath[3]` on a too-short path. -/
inductive WriteError where
  | indexError : WriteError
  | credentialUnavailable : WriteError
  | haError : WriteError
  | writeFailed (cause : String) : WriteError

/-- `coordinator._password` is usable iff present and non-empty
(`if not hasattr(...) or not self.coordinator._password`). -/
def credentialOk : Option String → Bool
  | some p => p ≠ ""
  | Option.none => false

/-- `PoolSyncChlorOutputNumberEntity.async_set_native_value`: convert °C
to °F when the unit is Celsius, truncate to an integer, read
`datapath[1]` and `datapath[3]`, require a credential, call
`_request_patch`, then request a coordinator refresh.  Returns the trace
of external calls in order, and the result: `HomeAssistantError` from the
patch passes through, any other exception is wrapped as a
`HomeAssistantError` with the cause. -/
def async_set_native_value (e : NumberEntity) (password : Option String)
    (patch : PatchOutcome) (value : ℚ) :
    List Event × Except WriteError Unit :=
  let new_value :=
    if e.native_unit_of_measurement = some CELSIUS then cToF value else value
  let sent := truncQ new_value
  match e.data_path[1]?, e.data_path[3]? with
  | some deviceId, some keyId =>
      if credentialOk password then
        match patch with
        | PatchOutcome.ok =>
            ([Event.patchCall deviceId keyId sent, Event.refreshRequest],
              Except.ok ())
        | PatchOutcome.haErr =>
            ([Event.patchCall deviceId keyId sent],
              Except.error WriteError.haError)
        | PatchOutcome.otherErr m =>
            ([Event.patchCall deviceId keyId sent],
              Except.error (WriteError.writeFailed m))
      else ([], Except.error WriteError.credentialUnavailable)
  | _, _ => ([], Except.error WriteError.indexError)

/-- The integer handed to the external update operation by a write, when
one was handed at all: the value of the leading `patchCall` of the
trace. -/
def sentValue (res : List Event × Except WriteError Unit) : Option ℤ :=
  match res.1 with
  | Event.patchCall _ _ n :: _ => some n
  | _ => Option.none

/-- `key for key, value in deviceTypes.items() if value == ty`, first hit
or the `"-1"` sentinel (`temp[0] if temp else "-1"`). -/
def discoverId (deviceTypes : List (String × JSON)) (ty : String) : String :=
  match (deviceTypes.filter (fun p => jeqStr p.2 ty)).head? with
  | some p => p.1
  | Option.none => "-1"

/-- `NUMBER_DESCRIPTIONS_CHLOR` instantiated at a chlorinator id: the
chlorinator output slider (percentage unit). -/
def chlorEntities (chlor_id : String) : List NumberEntity :=
  [⟨"chlor_output_control", some PERCENTAGE,
    ["devices", chlor_id, "config", "chlorOutput"]⟩]

/-- `NUMBER_DESCRIPTIONS_HEATPUMP` instantiated at a heat-pump id: the
Celsius setpoint slider and the unitless heat-mode box. -/
def heatpumpEntities (heatpump_id : String) : List NumberEntity :=
  [⟨"temperature_output_control", some CELSIUS,
    ["devices", heatpump_id, "config", "setpoint"]⟩,
   ⟨"heat_mode", Option.none,
    ["devices", heatpump_id, "config", "mode"]⟩]

/-- Lines 96–103 of `async_setup_entry`: the heat-pump and chlorinator
ids, starting from the `const.py` defaults (`const.py` is not under
`src/`, so the defaults are parameters) and overridden by device-type
discovery when a `deviceType` mapping is present. -/
def setupIds (CHLORINATOR_ID HEATPUMP_ID : String)
    (d : List (String × JSON)) : String × String :=
  match dictGet d "deviceType" with
  | some (JSON.obj deviceTypes) =>
      (discoverId deviceTypes "heatPump", discoverId deviceTypes "chlorSync")
  | _ => (HEATPUMP_ID, CHLORINATOR_ID)

/-- `async_setup_entry` as the list of number entities it constructs.
`coordinator.data` is `Option`al (may be `None`) and falsy when empty;
the guards require a `devices` mapping with a mapping at key `"0"`;
device-type discovery overrides the default ids when a `deviceType`
mapping is present; a `"-1"` id suppresses the corresponding
controls. -/
def async_setup_entry (CHLORINATOR_ID HEATPUMP_ID : String)
    (data : Option (List (String × JSON))) : List NumberEntity :=
  match data with
  | Option.none => []
  | some d =>
      match d with
      | [] => []
      | _ :: _ =>
          match dictGet d "devices" with
          | some (JSON.obj devs) =>
              (match dictGet devs "0" with
              | some (JSON.obj _) =>
                  let ids := setupIds CHLORINATOR_ID HEATPUMP_ID d
                  (if ids.2 ≠ "-1" then chlorEntities ids.2 else []) ++
                  (if ids.1 ≠ "-1" then heatpumpEntities ids.1 else [])
              | _ => [])
          | _ => []

/-! ## Helper lemmas -/

lemma credentialOk_some {pw : String} (hpw : pw ≠ "") :
    credentialOk (some pw) = true := by
  simp [credentialOk, hpw]

lemma truncQ_eq_floor {q : ℚ} (h : 0 ≤ q) : truncQ q = ⌊q⌋ := by
  rw [Rat.floor_def]
  exact Int.tdiv_eq_ediv (Rat.num_nonneg.2 h) (Int.ofNat_nonneg _)

lemma truncQ_concrete (q : ℚ) (n : ℤ) (h0 : (0 : ℚ) ≤ q)
    (h1 : (n : ℚ) ≤ q) (h2 : q < n + 1) : truncQ q = n := by
  rw [truncQ_eq_floor h0]
  exact Int.floor_eq_iff.2 ⟨h1, h2⟩

lemma sentValue_write (key : String) (u : Option String) (r d s k : String)
    {pw : String} (hpw : pw ≠ "") (patch : PatchOutcome) (v : ℚ) :
    sentValue (async_set_native_value ⟨key, u, [r, d, s, k]⟩ (some pw) patch v)
      = some (truncQ (if u = some CELSIUS then cToF v else v)) := by
  cases patch <;>
    simp [async_set_native_value, sentValue, credentialOk_some hpw]

/-! ## Claim theorems -/

/-- C1: on a Celsius-unit control, `async_set_native_value` sends
`int(v * 9/5 + 32)` (truncation, not rounding) to the external update
operation; any other unit sends `int(v)`; input 23.9 °C is sent as 75,
input 20.0 °C as 68, and input 24.4 °C (Fahrenheit 75.92) as 75, showing
truncation rather than rounding. -/
theorem C1_write_truncates_converted (r d s k key : String)
    (u : Option String) (hu : u ≠ some CELSIUS)
    (pw : String) (hpw : pw ≠ "") (patch : PatchOutcome) (v : ℚ) :
    sentValue (async_set_native_value
        ⟨"temperature_output_control", some CELSIUS, [r, d, s, k]⟩
        (some pw) patch v) = some (truncQ (v * 9 / 5 + 32))
  ∧ sentValue (async_set_native_value ⟨key, u, [r, d, s, k]⟩
        (some pw) patch v) = some (truncQ v)
  ∧ sentValue (async_set_native_value
        ⟨"temperature_output_control", some CELSIUS, [r, d, s, k]⟩
        (some pw) patch (239 / 10)) = some 75
  ∧ sentValue (async_set_native_value
        ⟨"temperature_output_control", some CELSIUS, [r, d, s, k]⟩
        (some pw) patch 20) = some 68
  ∧ sentValue (async_set_native_value
        ⟨"temperature_output_control", some CELSIUS, [r, d, s, k]⟩
        (some pw) patch (122 / 5)) = some 75 := by
  refine ⟨?_, ?_, ?_, ?_, ?_⟩ <;>
    rw [sentValue_write _ _ _ _ _ _ hpw]
  · rw [if_pos rfl, cToF]
  · rw [if_neg hu]
  · rw [if_pos rfl, truncQ_concrete (cToF (239 / 10)) 75
      (by norm_num [cToF]) (by norm_num [cToF]) (by norm_num [cToF])]
  · rw [if_pos rfl, truncQ_concrete (cToF 20) 68
      (by norm_num [cToF]) (by norm_num [cToF]) (by norm_num [cToF])]
  · rw [if_pos rfl, truncQ_concrete (cToF (122 / 5)) 75
      (by norm_num [cToF]) (by norm_num [cToF]) (by norm_num [cToF])]

theorem C1_write_truncates_converted_witness :
    sentValue (async_set_native_value
        ⟨"temperature_output_control", some CELSIUS,
          ["devices", "1", "config", "setpoint"]⟩
        (some "pw") PatchOutcome.ok (239 / 10)) = some 75 :=
  (C1_write_truncates_converted "devices" "1" "config" "setpoint"
    "heat_mode" Option.none (by decide) "pw" (by decide)
    PatchOutcome.ok (239 / 10)).2.2.1

/-- C8: the Celsius→Fahrenheit conversion of the write path and the
Fahrenheit→Celsius conversion of the read path are exact mutual inverses
over the rationals (hence within any floating-point tolerance). -/
theorem C8_roundtrip_conversion (c f : ℚ) :
    fToC (cToF c) = c ∧ cToF (fToC f) = f := by
  constructor <;> (simp only [fToC, cToF]; ring)

/-- C4: a write attempted while the coordinator holds no usable
credential (`_password` absent or falsy) raises the credential error and
makes no external call at all: the trace is empty, so the update
operation is never invoked. -/
theorem C4_no_credential_no_patch (key r d s k : String)
    (u : Option String) (pw : Option String)
    (hpw : credentialOk pw = false) (patch : PatchOutcome) (v : ℚ) :
    async_set_native_value ⟨key, u, [r, d, s, k]⟩ pw patch v
      = ([], Except.error WriteError.credentialUnavailable) := by
  simp [async_set_native_value, hpw]

theorem C4_no_credential_no_patch_witness :
    async_set_native_value
        ⟨"chlor_output_control", some PERCENTAGE,
          ["devices", "0", "config", "chlorOutput"]⟩
        Option.none PatchOutcome.ok 40
      = ([], Except.error WriteError.credentialUnavailable) :=
  C4_no_credential_no_patch "chlor_output_control" "devices" "0" "config"
    "chlorOutput" (some PERCENTAGE) Option.none (by decide)
    PatchOutcome.ok 40

/-- C5: failures of the external update operation are always surfaced by
`async_set_native_value`: a `HomeAssistantError` passes through
unwrapped, any other exception is re-raised wrapped with its cause, and
the write succeeds exactly when the patch call succeeded — no write-path
failure is absorbed. -/
theorem C5_write_failures_surface (key r d s k : String)
    (u : Option String) (pw : String) (hpw : pw ≠ "") (v : ℚ) :
    (async_set_native_value ⟨key, u, [r, d, s, k]⟩ (some pw)
        PatchOutcome.haErr v).2 = Except.error WriteError.haError
  ∧ (∀ m, (async_set_native_value ⟨key, u, [r, d, s, k]⟩ (some pw)
        (PatchOutcome.otherErr m) v).2
      = Except.error (WriteError.writeFailed m))
  ∧ (∀ patch, (async_set_native_value ⟨key, u, [r, d, s, k]⟩ (some pw)
        patch v).2 = Except.ok () ↔ patch = PatchOutcome.ok) := by
  refine ⟨?_, fun m => ?_, fun patch => ?_⟩
  · simp [async_set_native_value, credentialOk_some hpw]
  · simp [async_set_native_value, credentialOk_some hpw]
  · cases patch <;>
      simp [async_set_native_value, credentialOk_some hpw]

theorem C5_write_failures_surface_witness :
    (async_set_native_value
        ⟨"chlor_output_control", some PERCENTAGE,
          ["devices", "0", "config", "chlorOutput"]⟩
        (some "pw") PatchOutcome.haErr 40).2
      = Except.error WriteError.haError
  ∧ (async_set_native_value
        ⟨"chlor_output_control", some PERCENTAGE,
          ["devices", "0", "config", "chlorOutput"]⟩
        (some "pw") (PatchOutcome.otherErr "timeout") 40).2
      = Except.error (WriteError.writeFailed "timeout") :=
  ⟨(C5_write_failures_surface "chlor_output_control" "devices" "0"
      "config" "chlorOutput" (some PERCENTAGE) "pw" (by decide) 40).1,
   (C5_write_failures_surface "chlor_output_control" "devices" "0"
      "config" "chlorOutput" (some PERCENTAGE) "pw" (by decide)
      40).2.1 "timeout"⟩

/-- C2: on a Celsius-unit control, `native_value` returns the coerced
value converted from Fahrenheit to Celsius as `(f - 32) * 5/9`; any
other unit returns the coerced value unchanged; a resolved setpoint of
98.6 on a Celsius control reads as 37. -/
theorem C2_read_converts (tree : JSON) (path : List String)
    (key1 key2 : String) (u : Option String) (hu : u ≠ some CELSIUS)
    (v : JSON) (q : ℚ)
    (hres : _get_value_from_path tree path = some v)
    (hc : pyFloat v = some q) :
    native_value ⟨key1, some CELSIUS, path⟩ tree = some ((q - 32) * 5 / 9)
  ∧ native_value ⟨key2, u, path⟩ tree = some q
  ∧ native_value ⟨"temperature_output_control", some CELSIUS,
        ["devices", "1", "config", "setpoint"]⟩
      (JSON.obj [("devices", JSON.obj [("1", JSON.obj [("config",
          JSON.obj [("setpoint", JSON.num (493 / 5))])])])])
    = some 37 := by
  refine ⟨?_, ?_, ?_⟩
  · simp [native_value, hres, hc, fToC]
  · simp [native_value, hres, hc, hu]
  · have h1 : _get_value_from_path
        (JSON.obj [("devices", JSON.obj [("1", JSON.obj [("config",
          JSON.obj [("setpoint", JSON.num (493 / 5))])])])])
        ["devices", "1", "config", "setpoint"]
        = some (JSON.num (493 / 5)) := rfl
    have h2 : pyFloat (JSON.num (493 / 5)) = some (493 / 5) := rfl
    simp only [native_value, h1, h2, fToC, if_pos]
    norm_num

theorem C2_read_converts_witness :
    native_value ⟨"temperature_output_control", some CELSIUS,
        ["devices", "1", "config", "setpoint"]⟩
      (JSON.obj [("devices", JSON.obj [("1", JSON.obj [("config",
          JSON.obj [("setpoint", JSON.num (493 / 5))])])])])
    = some 37 :=
  (C2_read_converts (JSON.obj [("x", JSON.num 1)]) ["x"] "a" "b"
    (some PERCENTAGE) (by decide) (JSON.num 1) 1 rfl rfl).2.2

/-- C3: the read path never propagates a failure: when the path resolver
yields Absent, `native_value` returns Absent, and when the resolved value
cannot be coerced to a number, `native_value` returns Absent instead of
propagating the coercion failure. -/
theorem C3_read_never_raises (e : NumberEntity) (tree : JSON) :
    (_get_value_from_path tree e.data_path = Option.none →
      native_value e tree = Option.none)
  ∧ (∀ v, _get_value_from_path tree e.data_path = some v →
      pyFloat v = Option.none → native_value e tree = Option.none) := by
  constructor
  · intro h
    simp [native_value, h]
  · intro v h hv
    simp [native_value, h, hv]

theorem C3_read_never_raises_witness :
    native_value ⟨"chlor_output_control", some PERCENTAGE,
        ["devices", "0", "config", "chlorOutput"]⟩ (JSON.obj [])
      = Option.none
  ∧ native_value ⟨"heat_mode", Option.none, ["x"]⟩
      (JSON.obj [("x", JSON.str "abc")]) = Option.none :=
  ⟨(C3_read_never_raises _ _).1 rfl,
   (C3_read_never_raises _ _).2 (JSON.str "abc") rfl rfl⟩

/-- C6: a coordinator refresh is requested exactly once, after the
external update call succeeded — on success the trace is the patch call
followed by the refresh request (the write is done only after it), and
on any failure no refresh request appears in the trace. -/
theorem C6_refresh_only_after_success (e : NumberEntity)
    (pw : Option String) (patch : PatchOutcome) (v : ℚ) :
    ((async_set_native_value e pw patch v).2 = Except.ok () →
      ∃ d k n, (async_set_native_value e pw patch v).1
        = [Event.patchCall d k n, Event.refreshRequest])
  ∧ ((async_set_native_value e pw patch v).2 ≠ Except.ok () →
      Event.refreshRequest ∉ (async_set_native_value e pw patch v).1) := by
  unfold async_set_native_value
  rcases h1 : e.data_path[1]? with _ | d
  · simp
  rcases h3 : e.data_path[3]? with _ | k
  · simp
  cases hc : credentialOk pw
  · simp
  cases patch <;> simp

theorem C6_refresh_only_after_success_witness :
    Event.refreshRequest ∉ (async_set_native_value
        ⟨"chlor_output_control", some PERCENTAGE,
          ["devices", "0", "config", "chlorOutput"]⟩
        (some "pw") PatchOutcome.haErr 40).1 :=
  (C6_refresh_only_after_success _ _ _ _).2
    (fun h => Except.noConfusion h)

lemma discoverId_first_match (pre post : List (String × JSON))
    (k ty : String) (hpre : ∀ p ∈ pre, jeqStr p.2 ty = false) :
    discoverId (pre ++ (k, JSON.str ty) :: post) ty = k := by
  unfold discoverId
  rw [List.filter_append,
    List.filter_eq_nil_iff.2 (fun p hp => by simp [hpre p hp]),
    List.filter_cons_of_pos (by simp [jeqStr])]
  rfl

lemma discoverId_no_match (dt : List (String × JSON)) (ty : String)
    (h : ∀ p ∈ dt, jeqStr p.2 ty = false) : discoverId dt ty = "-1" := by
  unfold discoverId
  rw [List.filter_eq_nil_iff.2 (fun p hp => by simp [h p hp])]
  rfl

lemma setup_cons (cid hid : String) (p : String × JSON)
    (rest : List (String × JSON)) :
    async_setup_entry cid hid (some (p :: rest)) =
      match dictGet (p :: rest) "devices" with
      | some (JSON.obj devs) =>
          (match dictGet devs "0" with
          | some (JSON.obj _) =>
              (if (setupIds cid hid (p :: rest)).2 ≠ "-1" then
                chlorEntities (setupIds cid hid (p :: rest)).2 else []) ++
              (if (setupIds cid hid (p :: rest)).1 ≠ "-1" then
                heatpumpEntities (setupIds cid hid (p :: rest)).1 else [])
          | _ => [])
      | _ => [] := rfl

lemma mem_setup {cid hid : String} {d : List (String × JSON)}
    {e : NumberEntity} (he : e ∈ async_setup_entry cid hid (some d)) :
    ((setupIds cid hid d).2 ≠ "-1" ∧
        e ∈ chlorEntities (setupIds cid hid d).2)
  ∨ ((setupIds cid hid d).1 ≠ "-1" ∧
        e ∈ heatpumpEntities (setupIds cid hid d).1) := by
  rcases d with _ | ⟨p, rest⟩
  · simp [async_setup_entry] at he
  rw [setup_cons] at he
  rcases hdevs : dictGet (p :: rest) "devices" with _ | j
  · simp [hdevs] at he
  rcases j with _ | b | q | s | devs
  · simp [hdevs] at he
  · simp [hdevs] at he
  · simp [hdevs] at he
  · simp [hdevs] at he
  rcases h0 : dictGet devs "0" with _ | j0
  · simp [hdevs, h0] at he
  rcases j0 with _ | b0 | q0 | s0 | z
  · simp [hdevs, h0] at he
  · simp [hdevs, h0] at he
  · simp [hdevs, h0] at he
  · simp [hdevs, h0] at he
  simp only [hdevs, h0, List.mem_append] at he
  rcases he with he | he
  · left
    constructor
    · by_contra h
      rw [if_neg (not_not_intro h)] at he
      simp at he
    · by_cases h : (setupIds cid hid (p :: rest)).2 ≠ "-1"
      · rwa [if_pos h] at he
      · rw [if_neg h] at he
        simp at he
  · right
    constructor
    · by_contra h
      rw [if_neg (not_not_intro h)] at he
      simp at he
    · by_cases h : (setupIds cid hid (p :: rest)).1 ≠ "-1"
      · rwa [if_pos h] at he
      · rw [if_neg h] at he
        simp at he

/-- C7: discovery picks the first id (in mapping iteration order) whose
type is `"heatPump"`, and the first whose type is `"chlorSync"`; with no
match the sentinel `"-1"` is produced and every control of that device
type is skipped (no entity constructed); on
`{"5": "chlorSync", "7": "heatPump"}` the chlorinator id is `"5"` and
the heat-pump id is `"7"`. -/
theorem C7_device_discovery (cid hid k ty : String)
    (pre post : List (String × JSON))
    (hpre : ∀ p ∈ pre, jeqStr p.2 ty = false) :
    discoverId (pre ++ (k, JSON.str ty) :: post) ty = k
  ∧ (∀ dt : List (String × JSON),
      (∀ p ∈ dt, jeqStr p.2 "heatPump" = false) →
        discoverId dt "heatPump" = "-1")
  ∧ (∀ d dt, dictGet d "deviceType" = some (JSON.obj dt) →
      discoverId dt "heatPump" = "-1" →
      ∀ e ∈ async_setup_entry cid hid (some d),
        e.key ≠ "temperature_output_control" ∧ e.key ≠ "heat_mode")
  ∧ (∀ d dt, dictGet d "deviceType" = some (JSON.obj dt) →
      discoverId dt "chlorSync" = "-1" →
      ∀ e ∈ async_setup_entry cid hid (some d),
        e.key ≠ "chlor_output_control")
  ∧ discoverId [("5", JSON.str "chlorSync"), ("7", JSON.str "heatPump")]
      "chlorSync" = "5"
  ∧ discoverId [("5", JSON.str "chlorSync"), ("7", JSON.str "heatPump")]
      "heatPump" = "7" := by
  refine ⟨discoverId_first_match pre post k ty hpre,
    fun dt h => discoverId_no_match dt "heatPump" h, ?_, ?_, rfl, rfl⟩
  · intro d dt hdt hno e he
    have hids : setupIds cid hid d =
        (discoverId dt "heatPump", discoverId dt "chlorSync") := by
      simp [setupIds, hdt]
    rcases mem_setup he with ⟨_, hmem⟩ | ⟨hne, _⟩
    · rw [hids] at hmem
      simp only [chlorEntities, List.mem_singleton] at hmem
      subst hmem
      exact ⟨(by decide :
          ("chlor_output_control" : String) ≠ "temperature_output_control"),
        (by decide : ("chlor_output_control" : String) ≠ "heat_mode")⟩
    · rw [hids] at hne
      exact absurd hno hne
  · intro d dt hdt hno e he
    have hids : setupIds cid hid d =
        (discoverId dt "heatPump", discoverId dt "chlorSync") := by
      simp [setupIds, hdt]
    rcases mem_setup he with ⟨hne, _⟩ | ⟨_, hmem⟩
    · rw [hids] at hne
      exact absurd hno hne
    · rw [hids] at hmem
      simp only [heatpumpEntities, List.mem_cons, List.mem_singleton]
        at hmem
      rcases hmem with hmem | hmem | hmem
      · subst hmem
        exact (by decide :
          ("temperature_output_control" : String) ≠ "chlor_output_control")
      · subst hmem
        exact (by decide : ("heat_mode" : String) ≠ "chlor_output_control")
      · simp at hmem

theorem C7_device_discovery_witness :
    discoverId [("5", JSON.str "chlorSync"), ("7", JSON.str "heatPump")]
      "chlorSync" = "5"
  ∧ discoverId [("5", JSON.str "chlorSync"), ("7", JSON.str "heatPump")]
      "heatPump" = "7" :=
  ⟨(C7_device_discovery "0" "1" "5" "chlorSync" []
      [("7", JSON.str "heatPump")] (fun p hp => by simp at hp)).2.2.2.2.1,
   (C7_device_discovery "0" "1" "5" "chlorSync" []
      [("7", JSON.str "heatPump")] (fun p hp => by simp at hp)).2.2.2.2.2⟩

/-- C9: when the coordinator's data has no `deviceType` mapping (key
missing or value not a mapping), no control is skipped: both the
chlorinator and the heat-pump controls are constructed with the fixed
default ids `CHLORINATOR_ID` and `HEATPUMP_ID` (which are not the
`"-1"` sentinel). -/
theorem C9_defaults_without_deviceType (cid hid : String)
    (hc : cid ≠ "-1") (hh : hid ≠ "-1")
    (d devs z : List (String × JSON)) (hne : d ≠ [])
    (hdevs : dictGet d "devices" = some (JSON.obj devs))
    (h0 : dictGet devs "0" = some (JSON.obj z))
    (hnodt : ∀ m, dictGet d "deviceType" ≠ some (JSON.obj m)) :
    async_setup_entry cid hid (some d) =
      chlorEntities cid ++ heatpumpEntities hid := by
  have hids : setupIds cid hid d = (hid, cid) := by
    unfold setupIds
    rcases hdt : dictGet d "deviceType" with _ | j
    · rfl
    rcases j with _ | b | q | s | m
    · rfl
    · rfl
    · rfl
    · rfl
    · exact absurd hdt (hnodt m)
  rcases d with _ | ⟨p, rest⟩
  · exact absurd rfl hne
  rw [setup_cons]
  simp only [hdevs, h0, hids]
  rw [if_pos hc, if_pos hh]

theorem C9_defaults_without_deviceType_witness :
    async_setup_entry "0" "1"
        (some [("devices", JSON.obj [("0", JSON.obj [])])]) =
      chlorEntities "0" ++ heatpumpEntities "1" :=
  C9_defaults_without_deviceType "0" "1" (by decide) (by decide)
    [("devices", JSON.obj [("0", JSON.obj [])])] [("0", JSON.obj [])] []
    (by simp) rfl rfl (fun m h => by simp [dictGet] at h)

/-- C10: setup constructs no entity at all (heat-pump controls included)
unless the coordinator data is a non-empty mapping with a `devices`
mapping that has a mapping at key `"0"`: either the constructed list is
empty, or all three guards held. -/
theorem C10_setup_guards (cid hid : String)
    (data : Option (List (String × JSON))) :
    async_setup_entry cid hid data = []
  ∨ ∃ d devs z, data = some d ∧ d ≠ []
      ∧ dictGet d "devices" = some (JSON.obj devs)
      ∧ dictGet devs "0" = some (JSON.obj z) := by
  rcases data with _ | d
  · exact Or.inl rfl
  rcases d with _ | ⟨p, rest⟩
  · exact Or.inl rfl
  rcases hdevs : dictGet (p :: rest) "devices" with _ | j
  · left
    rw [setup_cons]
    simp [hdevs]
  rcases j with _ | b | q | s | devs
  · left; rw [setup_cons]; simp [hdevs]
  · left; rw [setup_cons]; simp [hdevs]
  · left; rw [setup_cons]; simp [hdevs]
  · left; rw [setup_cons]; simp [hdevs]
  rcases h0 : dictGet devs "0" with _ | j0
  · left; rw [setup_cons]; simp [hdevs, h0]
  rcases j0 with _ | b0 | q0 | s0 | z
  · left; rw [setup_cons]; simp [hdevs, h0]
  · left; rw [setup_cons]; simp [hdevs, h0]
  · left; rw [setup_cons]; simp [hdevs, h0]
  · left; rw [setup_cons]; simp [hdevs, h0]
  · exact Or.inr ⟨p :: rest, devs, z, rfl, by simp, hdevs, h0⟩

end PoolSync
